import Mathlib

/-!
Verification of the meal-planning workflow of the meican-ai-plan repository.

The development shallowly embeds the planning orchestrator (the `Planner`
component), the generator-output reconciliation of `GeminiService
.generateWeeklyPlan`, the deadline checks `canEditSlot` and
`isModificationAllowed`, and the `placeOrder` / `getAddresses` service layer.
Network calls are modelled as explicit oracle functions passed to the
orchestrator; thrown exceptions become `Except` values; JavaScript truthiness
on optional strings is modelled by `truthy`.
-/

set_option autoImplicit false

namespace Meican

/-- Meal periods, as in the `MealTime` enum of the frontend types. -/
inductive MealTime
  | BREAKFAST
  | LUNCH
  | DINNER
deriving DecidableEq, Repr

/-- The string a `MealTime` value is at runtime in the JS code. -/
def mtStr : MealTime → String
  | .BREAKFAST => "BREAKFAST"
  | .LUNCH => "LUNCH"
  | .DINNER => "DINNER"

/-- Slot statuses, as in the `OrderStatus` enum of the frontend types. -/
inductive OrderStatus
  | AVAILABLE
  | ORDERED
  | CLOSED
  | NO_SERVICE
deriving DecidableEq, Repr

/-- A loosely typed JSON identifier: the generator may return a dish id as a
string or as a number, and the code compares them with `String(x)` coercion. -/
inductive JVal
  | jstr (s : String)
  | jnum (n : Nat)
deriving DecidableEq, Repr

/-- JavaScript `String(x)` coercion on a `JVal`. -/
def jvalStr : JVal → String
  | .jstr s => s
  | .jnum n => toString n

/-- JavaScript truthiness of an optional string: `undefined` and `""` are
falsy, every other string is truthy. -/
def truthy : Option String → Bool
  | some s => s ≠ ""
  | none => false

/-- A dish, as produced by `getAvailableDishes` in meicanService. -/
structure Dish where
  id : JVal
  name : String
  priceInCent : Nat
  restaurantName : String
deriving DecidableEq, Repr

/-- One calendar slot (the `DailyStatus` type of the frontend), restricted to
the fields the planning workflow reads. -/
structure DailyStatus where
  date : String
  mealTime : MealTime
  status : OrderStatus
  tabUniqueId : Option String
  closeTime : Option String
  userAddressUniqueId : Option String
  nspace : Option String
deriving DecidableEq, Repr

/-- AI provider selector of `UserPreferences.aiProvider`. -/
inductive AIProvider
  | gemini
  | custom
deriving DecidableEq, Repr

/-- User preferences, restricted to the fields the planning workflow reads. -/
structure UserPreferences where
  aiProvider : AIProvider
  geminiApiKey : String
  customAiBaseUrl : String
  customAiApiKey : String
  enableWeekends : Bool
  defaultAddressId : Option String
  useMockData : Bool
deriving DecidableEq, Repr

/-! ### Date and time parsing

The JS code turns `"YYYY-MM-DD"` strings into `Date` values via `new Date`,
uses `.getDay()` for the weekend test, and compares deadline `Date`s with the
current time.  We embed a calendar date as its epoch-day number (days since
1970-01-01) and a date-time as minutes on that timeline. -/

/-- Splits a character list at every occurrence of the separator `c`
(the separators are dropped), like `String.prototype.split`. -/
def splitOnChar (c : Char) : List Char → List (List Char)
  | [] => [[]]
  | x :: xs =>
    let r := splitOnChar c xs
    if x = c then [] :: r
    else
      match r with
      | [] => [[x]]
      | y :: ys => (x :: y) :: ys

/-- Reads a non-empty all-digit character list as a decimal number. -/
def digitsValAux : List Char → Nat → Option Nat
  | [], acc => some acc
  | ch :: rest, acc =>
    if ch.isDigit then digitsValAux rest (acc * 10 + (ch.toNat - 48)) else none

/-- Numeric value of a digit string; `none` when empty or not all digits. -/
def parseNatChars : List Char → Option Nat
  | [] => none
  | l => digitsValAux l 0

/-- Civil date to days since 1970-01-01 (valid for years 2000 and later,
which keeps all intermediate values in `Nat`). -/
def daysFromCivil (y m d : Nat) : Nat :=
  let y2 := if m ≤ 2 then y - 1 else y
  let era := y2 / 400
  let yoe := y2 % 400
  let mp := (m + 9) % 12
  let doy := (153 * mp + 2) / 5 + d - 1
  let doe := yoe * 365 + yoe / 4 - yoe / 100 + doy
  era * 146097 + doe - 719468

/-- Parses a `"YYYY-MM-DD"` date string to its epoch-day number. -/
def parseDate (s : String) : Option Nat :=
  match (splitOnChar '-' s.toList).map parseNatChars with
  | [some y, some m, some d] =>
    if 2000 ≤ y ∧ 1 ≤ m ∧ m ≤ 12 ∧ 1 ≤ d ∧ d ≤ 31 then
      some (daysFromCivil y m d)
    else none
  | _ => none

/-- Parses a `"HH:mm"` time-of-day string to minutes after midnight. -/
def parseTime (s : String) : Option Nat :=
  match (splitOnChar ':' s.toList).map parseNatChars with
  | [some h, some m] => if h ≤ 23 ∧ m ≤ 59 then some (h * 60 + m) else none
  | _ => none

/-- Day of week of a date string (0 = Sunday .. 6 = Saturday), mirroring
`new Date(s).getDay()`; `none` when the string does not parse. -/
def dayOfWeek? (s : String) : Option Nat :=
  (parseDate s).map (fun d => (d + 4) % 7)

/-- The weekend test of the `slotsToFill` filter:
`dayOfWeek === 0 || dayOfWeek === 6`; an unparseable date is `NaN` in JS and
therefore not a weekend. -/
def isWeekendDate (s : String) : Bool :=
  match dayOfWeek? s with
  | some w => w == 0 || w == 6
  | none => false

/-- Minutes-since-epoch value of a `"YYYY-MM-DD HH:mm"` (or bare
`"YYYY-MM-DD"`) string, mirroring `new Date(closeTime.replace(' ', 'T'))`. -/
def parseDateTimeStr (s : String) : Option Nat :=
  match s.splitOn " " with
  | [d, t] =>
    match parseDate d, parseTime t with
    | some ed, some mins => some (ed * 1440 + mins)
    | _, _ => none
  | [d] => (parseDate d).map (· * 1440)
  | _ => none

/-- Deadline of a slot from its `closeTime` field: a string containing a date
separator is parsed as a full date-time, a bare time-of-day is combined with
the slot's own date (mirroring the branch on `closeTime.includes('-')`). -/
def closeDeadline (date : String) (closeTime : String) : Option Nat :=
  if closeTime.toList.contains '-' then parseDateTimeStr closeTime
  else
    match parseDate date, parseTime closeTime with
    | some ed, some mins => some (ed * 1440 + mins)
    | _, _ => none

/-- The parsed modification deadline of a slot; `none` when the slot has no
(or an empty) `closeTime`, or when the string does not parse. -/
def slotDeadline (slot : DailyStatus) : Option Nat :=
  match slot.closeTime with
  | none => none
  | some ct => if ct = "" then none else closeDeadline slot.date ct

/-- `isModificationAllowed` of `OrderEditModal`: editable when there is no
deadline string or the current time is strictly before the parsed deadline
(`new Date() < closeDate`; an unparseable deadline compares false). -/
def isModificationAllowed (now : Nat) (slot : DailyStatus) : Bool :=
  match slot.closeTime with
  | none => true
  | some ct =>
    if ct = "" then true
    else
      match closeDeadline slot.date ct with
      | some t => decide (now < t)
      | none => false

/-- `canEditSlot` of the App component: a missing slot and a `CLOSED` slot are
never editable, otherwise the same deadline check as `isModificationAllowed`. -/
def canEditSlot (now : Nat) : Option DailyStatus → Bool
  | none => false
  | some slot =>
    if slot.status == .CLOSED then false
    else
      match slot.closeTime with
      | none => true
      | some ct =>
        if ct = "" then true
        else
          match closeDeadline slot.date ct with
          | some t => decide (now < t)
          | none => false

/-! ### Slot selection (`slotsToFill`) -/

/-- The filter predicate of the `slotsToFill` memo in the Planner component. -/
def slotFillPred (prefs : UserPreferences) (s : DailyStatus) : Bool :=
  let isWeekend := isWeekendDate s.date
  if isWeekend && !prefs.enableWeekends then false
  else if s.mealTime == .BREAKFAST then false
  else s.status == .AVAILABLE || s.status == .NO_SERVICE

/-- `slotsToFill`: the eligible-slot subset of the week's calendar. -/
def slotsToFill (weekStatus : List DailyStatus) (prefs : UserPreferences) :
    List DailyStatus :=
  weekStatus.filter (slotFillPred prefs)

/-! ### AI configuration check and target times -/

/-- `checkAIConfig` of the Planner: a custom provider needs base URL and API
key, the Gemini provider needs its API key (empty strings are falsy). -/
def checkAIConfig (prefs : UserPreferences) : Bool :=
  match prefs.aiProvider with
  | .custom => !(prefs.customAiBaseUrl = "" || prefs.customAiApiKey = "")
  | .gemini => !(prefs.geminiApiKey = "")

/-- The fixed per-period fetch/order clock time:
`"09:00"` by default, `"07:00"` for breakfast, `"12:00"` for dinner. -/
def targetTimeFor : MealTime → String
  | .BREAKFAST => "07:00"
  | .LUNCH => "09:00"
  | .DINNER => "12:00"

/-- The `"date HH:mm"` time argument passed to `getAvailableDishes` for a
slot in the enrichment loop. -/
def menuTimeArg (slot : DailyStatus) : String :=
  slot.date ++ " " ++ targetTimeFor slot.mealTime

/-! ### Slot enrichment (step 2 of `startPlanning`) -/

/-- A slot with its fetched menu attached, as handed to the generator. -/
structure EnrichedSlot where
  date : String
  mealTime : MealTime
  tabUniqueId : String
  menu : List Dish
  userAddressUniqueId : Option String
  nspace : Option String
deriving DecidableEq, Repr

/-- Log events emitted by the enrichment loop (i18n keys of the `addLog`
calls). -/
inductive LogEvent
  | fetchingMenu (date : String) (meal : MealTime)
  | noMenuFound (date : String)
  | fetchMenuFailed (date : String)
deriving DecidableEq, Repr

/-- One iteration of the enrichment loop: for a slot with a (truthy) order
channel handle, fetch the menu; a thrown fetch or an empty menu is logged and
yields no enriched slot; a slot without handle is skipped without a fetch and
without a log.  Returns (logs, menu-fetch calls, enriched slot if any). -/
def enrichSlot (getDishes : String → String → Except String (List Dish))
    (slot : DailyStatus) :
    List LogEvent × List (String × String) × Option EnrichedSlot :=
  match slot.tabUniqueId with
  | none => ([], [], none)
  | some tab =>
    if tab = "" then ([], [], none)
    else
      let timeArg := menuTimeArg slot
      match getDishes tab timeArg with
      | .error _ =>
        ([.fetchingMenu slot.date slot.mealTime, .fetchMenuFailed slot.date],
         [(tab, timeArg)], none)
      | .ok menu =>
        if menu.length > 0 then
          ([.fetchingMenu slot.date slot.mealTime], [(tab, timeArg)],
           some ⟨slot.date, slot.mealTime, tab, menu,
                 slot.userAddressUniqueId, slot.nspace⟩)
        else
          ([.fetchingMenu slot.date slot.mealTime, .noMenuFound slot.date],
           [(tab, timeArg)], none)

/-- The enriched slots collected by the loop, in input order. -/
def enrichedSlotsOf (getDishes : String → String → Except String (List Dish)) :
    List DailyStatus → List EnrichedSlot
  | [] => []
  | s :: rest =>
    match (enrichSlot getDishes s).2.2 with
    | some x => x :: enrichedSlotsOf getDishes rest
    | none => enrichedSlotsOf getDishes rest

/-- The menu-fetch calls issued by the loop, in order. -/
def menuCallsOf (getDishes : String → String → Except String (List Dish)) :
    List DailyStatus → List (String × String)
  | [] => []
  | s :: rest => (enrichSlot getDishes s).2.1 ++ menuCallsOf getDishes rest

/-- The log events emitted by the loop, in order. -/
def enrichLogsOf (getDishes : String → String → Except String (List Dish)) :
    List DailyStatus → List LogEvent
  | [] => []
  | s :: rest => (enrichSlot getDishes s).1 ++ enrichLogsOf getDishes rest

/-- The final value of the loop's `fetchedCount` counter, incremented once per
slot whether or not the slot has a handle or its fetch succeeds. -/
def fetchedCountOf : List DailyStatus → Nat
  | [] => 0
  | _ :: rest => fetchedCountOf rest + 1

/-! ### Generator-output reconciliation (`generateWeeklyPlan`) -/

/-- One raw item of the generator's parsed JSON output (untrusted). -/
structure RawPlanItem where
  date : String
  mealTime : String
  dishId : JVal
  reason : String
deriving DecidableEq, Repr

/-- A reconciled proposal (the `PlannedOrder` type). -/
structure PlannedOrder where
  date : String
  mealTime : MealTime
  dish : Dish
  reason : String
  tabUniqueId : String
  userAddressUniqueId : Option String
  nspace : Option String
deriving DecidableEq, Repr

/-- The slot-matching predicate of the reconciliation:
`s.date === p.date && s.mealTime === p.mealTime` (the slot's meal time is a
string at runtime). -/
def slotMatches (p : RawPlanItem) (s : EnrichedSlot) : Bool :=
  s.date == p.date && mtStr s.mealTime == p.mealTime

/-- The dish-matching predicate of the reconciliation: loose (string-coerced)
identifier equality `String(d.id) === String(p.dishId)`. -/
def dishMatches (p : RawPlanItem) (d : Dish) : Bool :=
  jvalStr d.id == jvalStr p.dishId

/-- Reconciliation of a single generator item against the enriched slots
(the body of the `parsed.forEach` in `generateWeeklyPlan`): find the first
slot with matching date and meal period, then the first dish of its menu
with loosely equal identifier; any failure discards the item. -/
def reconcileItem (slots : List EnrichedSlot) (p : RawPlanItem) :
    Option PlannedOrder :=
  match slots.find? (slotMatches p) with
  | none => none
  | some slot =>
    match slot.menu.find? (dishMatches p) with
    | none => none
    | some dish =>
      some ⟨p.date, slot.mealTime, dish, p.reason, slot.tabUniqueId,
            slot.userAddressUniqueId, slot.nspace⟩

/-- Reconciliation of the whole generator output: surviving items in input
order, failing items dropped. -/
def reconcilePlan (slots : List EnrichedSlot) (parsed : List RawPlanItem) :
    List PlannedOrder :=
  parsed.filterMap (reconcileItem slots)

/-! ### The planning session (`startPlanning`) -/

/-- An order in the trailing history window. -/
structure HistoricalOrder where
  date : String
  dishName : String
  restaurantName : String
deriving DecidableEq, Repr

/-- The `Step` union of the Planner component's state machine. -/
inductive Step
  | idle
  | fetching
  | planning
  | review
  | submitting
  | error
  | completed
  | ai_config
  | fully_planned
deriving DecidableEq, Repr

/-- The external collaborators of `startPlanning`: the menu fetch, the history
fetch and the generator call (parse included; a throw anywhere in the
generator is an `error`). -/
structure SessionOracles where
  getDishes : String → String → Except String (List Dish)
  history : Except String (List HistoricalOrder)
  generate : List EnrichedSlot → List HistoricalOrder →
    Except String (List RawPlanItem)

/-- The history list `startPlanning` proceeds with: the fetched orders, or an
empty list when the fetch throws (non-fatal). -/
def historyOf (o : SessionOracles) : List HistoricalOrder :=
  match o.history with
  | .ok h => h
  | .error _ => []

/-- The observable outcome of one `startPlanning` run: the step reached, the
error message (if any), the reconciled plan, and the calls/logs/progress of
the enrichment phase. -/
structure SessionResult where
  step : Step
  errorMsg : Option String
  plan : List PlannedOrder
  menuCalls : List (String × String)
  enrichLogs : List LogEvent
  fetchedCount : Nat
  historyCalled : Bool
  generatorCalled : Bool
deriving DecidableEq, Repr

/-- The initial `step` of the Planner component on open:
`fully_planned` when there is nothing to fill, else `idle`. -/
def initialStep (weekStatus : List DailyStatus) (prefs : UserPreferences) :
    Step :=
  if (slotsToFill weekStatus prefs).length = 0 then .fully_planned else .idle

/-- `startPlanning` of the Planner component: config check, empty-slot check,
menu enrichment (empty result is fatal), history fetch (failure non-fatal),
generator call and reconciliation (zero survivors is fatal). -/
def startPlanning (prefs : UserPreferences) (weekStatus : List DailyStatus)
    (o : SessionOracles) : SessionResult :=
  if checkAIConfig prefs then
    let slots := slotsToFill weekStatus prefs
    if slots.length = 0 then
      ⟨.fully_planned, none, [], [], [], 0, false, false⟩
    else
      let enriched := enrichedSlotsOf o.getDishes slots
      let calls := menuCallsOf o.getDishes slots
      let logs := enrichLogsOf o.getDishes slots
      let cnt := fetchedCountOf slots
      if enriched.length = 0 then
        ⟨.error, some "planner.noMenusFound", [], calls, logs, cnt,
         false, false⟩
      else
        match o.generate enriched (historyOf o) with
        | .error e => ⟨.error, some e, [], calls, logs, cnt, true, true⟩
        | .ok parsed =>
          let plan := reconcilePlan enriched parsed
          if plan.length = 0 then
            ⟨.error, some "planner.aiGenFailed", [], calls, logs, cnt,
             true, true⟩
          else
            ⟨.review, none, plan, calls, logs, cnt, true, true⟩
  else
    ⟨.ai_config, none, [], [], [], 0, false, false⟩

/-! ### Address cache and resolution (batch execution) -/

/-- A delivery address as returned by `getAddresses`. -/
structure Address where
  uniqueId : String
  name : String
deriving DecidableEq, Repr

/-- The result of one `getAddresses` call: the address list and the suggested
default identifier (from the upstream recent list). -/
structure AddrResult where
  addresses : List Address
  defaultAddressId : Option String
deriving DecidableEq, Repr

/-- The per-batch address cache together with the trace of the namespace keys
actually fetched (in order), used to state the at-most-one-fetch property. -/
structure AddrState where
  cache : List (String × AddrResult)
  fetchTrace : List String
deriving DecidableEq, Repr

/-- The cache key of a namespace: `namespace || 'default'` (a missing or
empty namespace maps to the explicit key `"default"`). -/
def cacheKey : Option String → String
  | none => "default"
  | some s => if s = "" then "default" else s

/-- Lookup in the cache object, first binding wins. -/
def lookupCache : List (String × AddrResult) → String → Option AddrResult
  | [], _ => none
  | (k, v) :: rest, key => if k = key then some v else lookupCache rest key

/-- `getAddressesForNamespace` of `executeOrder`: return the cached result for
the namespace's key when present; otherwise fetch once, caching the result —
or an empty address list when the fetch throws — before returning it. -/
def getAddressesForNamespace
    (getAddresses : Option String → Except String AddrResult)
    (st : AddrState) (ns : Option String) : AddrResult × AddrState :=
  let key := cacheKey ns
  match lookupCache st.cache key with
  | some r => (r, st)
  | none =>
    let r :=
      match getAddresses ns with
      | .ok r => r
      | .error _ => (⟨[], none⟩ : AddrResult)
    (r, ⟨st.cache ++ [(key, r)], st.fetchTrace ++ [key]⟩)

/-- The orchestrator state threaded through the batch: the address cache and
the session-wide preferred address name (learned lazily). -/
structure BatchState where
  addr : AddrState
  defaultAddressName : Option String
deriving DecidableEq, Repr

/-- The name-match step of per-proposal address resolution: when a preferred
name has been captured, the first address of the namespace with that exact
name supplies the identifier; otherwise the running value is unchanged. -/
def nameMatched (dan : Option String) (result : AddrResult)
    (a0 : Option String) : Option String :=
  match dan with
  | some n =>
    if n = "" then a0
    else
      match result.addresses.find? (fun a => a.name == n) with
      | some m => some m.uniqueId
      | none => a0
  | none => a0

/-- The fallback identifier when the name match produced nothing:
`result.defaultAddressId || result.addresses[0].uniqueId`. -/
def fallbackChoice (result : AddrResult) (a : Address) : String :=
  match result.defaultAddressId with
  | some d => if d = "" then a.uniqueId else d
  | none => a.uniqueId

/-- Per-proposal address resolution (the body of the `if (!addressIdToUse)`
block of `executeOrder`): an address identifier carried by the proposal is
used directly; otherwise the namespace's (cached) address list is consulted —
name match first, then the fallback choice, learning
`result.addresses[0].name` as the preferred name when none was captured. -/
def resolveAddress (getAddresses : Option String → Except String AddrResult)
    (st : BatchState) (item : PlannedOrder) : Option String × BatchState :=
  if truthy item.userAddressUniqueId then (item.userAddressUniqueId, st)
  else
    let fetched := getAddressesForNamespace getAddresses st.addr item.nspace
    let result := fetched.1
    let a1 := nameMatched st.defaultAddressName result item.userAddressUniqueId
    if truthy a1 then (a1, ⟨fetched.2, st.defaultAddressName⟩)
    else
      match result.addresses with
      | [] => (a1, ⟨fetched.2, st.defaultAddressName⟩)
      | a :: _ =>
        (some (fallbackChoice result a),
         ⟨fetched.2,
          if truthy st.defaultAddressName then st.defaultAddressName
          else some a.name⟩)

/-! ### The order service (`placeOrder` of meicanService) -/

/-- The upstream response to `POST /api/orders/add`. -/
structure OrderResponse where
  successful : Bool
  message : Option String
deriving DecidableEq, Repr

/-- The request body `placeOrder` submits to `POST /api/orders/add` (the
fields the claims are about). -/
structure OrderRequest where
  tabUniqueId : String
  dishId : JVal
  targetTime : String
  userAddressUniqueId : String
  corpAddressUniqueId : String
deriving DecidableEq, Repr

/-- The value `placeOrder` resolves with: a bare success flag (the service
catches every error and resolves with `success: false`; it never rejects). -/
structure PlaceOutcome where
  success : Bool
deriving DecidableEq, Repr

/-- `placeOrder` of meicanService: in mock mode succeed without a request; a
missing corp address is an error caught by the service's own handler; else
build the request with `userAddressUniqueId` defaulting to
`corpAddressUniqueId`, send it, and map any failure to `success: false`.
Returns the outcome and the list of requests actually sent. -/
def placeOrder (api : OrderRequest → Except String OrderResponse)
    (useMockData : Bool) (tabUniqueId : String) (dishId : JVal)
    (targetTime : String)
    (corpAddressUniqueId userAddressUniqueId : Option String) :
    PlaceOutcome × List OrderRequest :=
  if useMockData then (⟨true⟩, [])
  else
    match corpAddressUniqueId with
    | none => (⟨false⟩, [])
    | some c =>
      if c = "" then (⟨false⟩, [])
      else
        let userAddr :=
          match userAddressUniqueId with
          | some u => if u = "" then c else u
          | none => c
        let req : OrderRequest := ⟨tabUniqueId, dishId, targetTime, userAddr, c⟩
        match api req with
        | .ok resp => if resp.successful then (⟨true⟩, [req]) else (⟨false⟩, [req])
        | .error _ => (⟨false⟩, [req])

/-! ### Batch execution (`executeOrder`) -/

/-- One per-proposal Execution Result entry. -/
structure OrderResult where
  date : String
  dishName : String
  success : Bool
  message : Option String
deriving DecidableEq, Repr

/-- The label used in the no-address error message:
`item.namespace || 'unknown'`. -/
def nsLabel : Option String → String
  | some s => if s = "" then "unknown" else s
  | none => "unknown"

/-- One iteration of the batch loop: resolve the address (possibly updating
the cache and the learned name), then — when an address was found — submit
the order via `placeOrder`.  The orchestrator ignores `placeOrder`'s returned
success flag, so the entry records a failure only when address resolution
threw; otherwise it records success with no message. -/
def execStep (getAddresses : Option String → Except String AddrResult)
    (api : OrderRequest → Except String OrderResponse) (useMockData : Bool)
    (st : BatchState) (item : PlannedOrder) :
    OrderResult × List OrderRequest × BatchState :=
  let resolved := resolveAddress getAddresses st item
  let aid := resolved.1
  if truthy aid then
    let sent := placeOrder api useMockData item.tabUniqueId item.dish.id
      (item.date ++ " " ++ targetTimeFor item.mealTime) aid none
    (⟨item.date, item.dish.name, true, none⟩, sent.2, resolved.2)
  else
    (⟨item.date, item.dish.name, false,
      some ("No valid address found for namespace " ++ nsLabel item.nspace)⟩,
     [], resolved.2)

/-- The observable outcome of one batch run: the per-proposal results in
order, the order requests sent, and the final orchestrator state. -/
structure ExecResult where
  results : List OrderResult
  calls : List OrderRequest
  state : BatchState
deriving DecidableEq, Repr

/-- The `for (const item of plan)` loop of `executeOrder`, threading the
cache and learned name and appending one result per proposal. -/
def execLoop (getAddresses : Option String → Except String AddrResult)
    (api : OrderRequest → Except String OrderResponse) (useMockData : Bool) :
    BatchState → List PlannedOrder → ExecResult
  | st, [] => ⟨[], [], st⟩
  | st, item :: rest =>
    let step := execStep getAddresses api useMockData st item
    let tail := execLoop getAddresses api useMockData step.2.2 rest
    ⟨step.1 :: tail.results, step.2.1 ++ tail.calls, tail.state⟩

/-- The first half of step 1 of `executeOrder`: when the user configured a
default delivery address, look it up once under a representative namespace
taken from the plan and capture its display name. -/
def initNameFromPrefs (getAddresses : Option String → Except String AddrResult)
    (prefs : UserPreferences) (plan : List PlannedOrder) :
    Option String × AddrState :=
  let st0 : AddrState := ⟨[], []⟩
  match prefs.defaultAddressId with
  | some did =>
    if did = "" then (none, st0)
    else
      let sample := (plan.find? (fun i => truthy i.nspace)).bind
        (fun i => i.nspace)
      let fetched := getAddressesForNamespace getAddresses st0 sample
      match fetched.1.addresses.find? (fun a => a.uniqueId == did) with
      | some addr => (some addr.name, fetched.2)
      | none => (none, fetched.2)
  | none => (none, st0)

/-- Step 1 of `executeOrder`: resolve the session-wide preferred address name
— from the configured default address, or else from the first calendar slot
that already carries a used address — priming the shared address cache on the
way. -/
def initDefaultName (getAddresses : Option String → Except String AddrResult)
    (prefs : UserPreferences) (weekStatus : List DailyStatus)
    (plan : List PlannedOrder) : BatchState :=
  let first := initNameFromPrefs getAddresses prefs plan
  if truthy first.1 then ⟨first.2, first.1⟩
  else
    match weekStatus.find? (fun s => truthy s.userAddressUniqueId) with
    | some s =>
      match s.userAddressUniqueId with
      | some uid =>
        let fetched := getAddressesForNamespace getAddresses first.2 s.nspace
        match fetched.1.addresses.find? (fun a => a.uniqueId == uid) with
        | some addr => ⟨fetched.2, some addr.name⟩
        | none => ⟨fetched.2, first.1⟩
      | none => ⟨first.2, first.1⟩
    | none => ⟨first.2, first.1⟩

/-- `executeOrder` of the Planner component: prime the preferred address
name, then process the user-approved proposals strictly in order. -/
def executeOrder (prefs : UserPreferences) (weekStatus : List DailyStatus)
    (plan : List PlannedOrder)
    (getAddresses : Option String → Except String AddrResult)
    (api : OrderRequest → Except String OrderResponse) : ExecResult :=
  execLoop getAddresses api prefs.useMockData
    (initDefaultName getAddresses prefs weekStatus plan) plan

/-! ### Invariant and concrete scenario inputs used by the theorems -/

/-- Invariant of the address cache state: no namespace key was ever fetched
twice, and every fetched key is present in the cache. -/
def CacheInv (st : AddrState) : Prop :=
  st.fetchTrace.Nodup ∧ ∀ k ∈ st.fetchTrace, (lookupCache st.cache k).isSome

/-- Preferences with a complete Gemini configuration and weekends disabled. -/
def prefsExec : UserPreferences := ⟨.gemini, "key", "", "", false, none, false⟩

/-- Preferences with the (mandatory) Gemini API key missing. -/
def prefsNoKey : UserPreferences := ⟨.gemini, "", "", "", false, none, false⟩

/-- A sample dish. -/
def dishKungPao : Dish := ⟨.jstr "d1", "Kung Pao", 2500, "R"⟩

/-- A one-proposal plan whose item carries its own address identifier. -/
def planCarriedAddr : List PlannedOrder :=
  [⟨"2024-06-10", .LUNCH, dishKungPao, "r", "tab1", some "addr1", some "ns1"⟩]

/-- A proposal that carries no address identifier. -/
def itemNoAddr : PlannedOrder :=
  ⟨"2024-06-10", .LUNCH, dishKungPao, "r", "tab1", none, some "ns1"⟩

/-- A one-proposal plan whose item carries no address identifier. -/
def planNoAddr : List PlannedOrder := [itemNoAddr]

/-- The empty batch state. -/
def batchState0 : BatchState := ⟨⟨[], []⟩, none⟩

/-- An address oracle that always throws. -/
def gaThrow : Option String → Except String AddrResult :=
  fun _ => .error "addr fetch failed"

/-- An address oracle returning two addresses whose suggested default is the
second one. -/
def gaTwoAddrs : Option String → Except String AddrResult :=
  fun _ => .ok ⟨[⟨"a1", "N1"⟩, ⟨"a2", "N2"⟩], some "a2"⟩

/-- An order API that always fails. -/
def apiNetworkError : OrderRequest → Except String OrderResponse :=
  fun _ => .error "Network error"

/-- An order API that always succeeds. -/
def apiOk : OrderRequest → Except String OrderResponse :=
  fun _ => .ok ⟨true, none⟩

/-- Session oracles that throw on every call. -/
def failingOracles : SessionOracles :=
  ⟨fun _ _ => .error "net", .error "net", fun _ _ => .error "net"⟩

/-- An eligible weekday lunch slot without an order-channel handle. -/
def eligibleDemoSlot : DailyStatus :=
  ⟨"2024-06-11", .LUNCH, .AVAILABLE, none, none, none, none⟩

/-- An eligible weekday lunch slot with an order-channel handle. -/
def slotWithTab : DailyStatus :=
  ⟨"2024-06-11", .LUNCH, .AVAILABLE, some "tabX", none, none, none⟩

/-- Session oracles whose menu fetch always throws. -/
def oraclesMenuFail : SessionOracles :=
  ⟨fun _ _ => .error "boom", .ok [], fun _ _ => .ok []⟩

/-- Session oracles whose generator proposes only a slot that does not exist
(date `1999-01-01`), so reconciliation discards everything. -/
def oraclesGenBad : SessionOracles :=
  ⟨fun _ _ => .ok [⟨.jnum 55, "Dish55", 100, "R"⟩], .error "h",
   fun _ _ => .ok [⟨"1999-01-01", "LUNCH", .jstr "1", "x"⟩]⟩

/-- An enriched slot whose menu holds one dish with the numeric id 55. -/
def enrichedDemo : EnrichedSlot :=
  ⟨"2024-06-10", .LUNCH, "tab1", [⟨.jnum 55, "Dish55", 100, "R"⟩], none, none⟩

/-- A generator item for the same slot with the string id `"55"`. -/
def rawDemo : RawPlanItem := ⟨"2024-06-10", "LUNCH", .jstr "55", "why"⟩

/-- The slot of the deadline scenario: date `2024-06-10`,
`closeTime = "10:00"`. -/
def deadlineDemoSlot : DailyStatus :=
  ⟨"2024-06-10", .LUNCH, .AVAILABLE, some "tab", some "10:00", none, none⟩

/-- Simulated current time 2024-06-10T11:00 local. -/
def demoNow11 : Nat := daysFromCivil 2024 6 10 * 1440 + 11 * 60

/-- Simulated current time 2024-06-10T09:00 local. -/
def demoNow09 : Nat := daysFromCivil 2024 6 10 * 1440 + 9 * 60

/-- A cache state that already holds the key `"ns1"`. -/
def addrStateDemo : AddrState :=
  ⟨[("ns1", ⟨[⟨"a1", "N1"⟩], none⟩)], ["ns1"]⟩

/-- The single order request of the `planNoAddr` batch under `gaTwoAddrs`. -/
def reqDemo : OrderRequest :=
  ⟨"tab1", .jstr "d1", "2024-06-10 09:00", "a2", "a2"⟩

/-! ## Helper lemmas -/

theorem slotFillPred_eq_true_iff (prefs : UserPreferences) (s : DailyStatus) :
    slotFillPred prefs s = true ↔
      s.mealTime ≠ .BREAKFAST ∧
      (isWeekendDate s.date = true → prefs.enableWeekends = true) ∧
      (s.status = .AVAILABLE ∨ s.status = .NO_SERVICE) := by
  unfold slotFillPred
  cases hW : isWeekendDate s.date <;>
    cases hE : prefs.enableWeekends <;>
      cases s.mealTime <;> cases s.status <;> simp_all

theorem isWeekendDate_iff (d : String) :
    isWeekendDate d = true ↔ dayOfWeek? d = some 0 ∨ dayOfWeek? d = some 6 := by
  unfold isWeekendDate
  cases h : dayOfWeek? d <;> simp

/-! ## C3: slot eligibility -/

/-- C3: a slot is in `slotsToFill` iff it is one of the week's slots, its
meal period is not breakfast, weekend-dated slots require the
weekend-inclusion preference, and its status is `AVAILABLE` or `NO_SERVICE`;
in particular every breakfast slot, every weekend slot when weekends are
disabled, and every `CLOSED` or `ORDERED` slot is excluded. -/
theorem C3_eligible_slots (ws : List DailyStatus) (prefs : UserPreferences)
    (s : DailyStatus) :
    (s ∈ slotsToFill ws prefs ↔
      s ∈ ws ∧ s.mealTime ≠ .BREAKFAST ∧
      (isWeekendDate s.date = true → prefs.enableWeekends = true) ∧
      (s.status = .AVAILABLE ∨ s.status = .NO_SERVICE)) ∧
    (isWeekendDate s.date = true ↔
      dayOfWeek? s.date = some 0 ∨ dayOfWeek? s.date = some 6) ∧
    (s ∈ slotsToFill ws prefs → s.status ≠ .CLOSED ∧ s.status ≠ .ORDERED) := by
  have hmem : s ∈ slotsToFill ws prefs ↔ s ∈ ws ∧ slotFillPred prefs s = true := by
    simp [slotsToFill, List.mem_filter]
  refine ⟨?_, isWeekendDate_iff s.date, ?_⟩
  · rw [hmem, slotFillPred_eq_true_iff]
  · intro hs
    rcases (slotFillPred_eq_true_iff prefs s).mp (hmem.mp hs).2 with ⟨_, _, h3⟩
    rcases h3 with h | h <;> simp [h]

/-- Witness for C3: a weekday available lunch slot is eligible. -/
theorem C3_eligible_slots_witness :
    eligibleDemoSlot ∈ slotsToFill [eligibleDemoSlot] prefsExec :=
  (C3_eligible_slots [eligibleDemoSlot] prefsExec eligibleDemoSlot).1.mpr
    (by decide)

/-! ## C6: modification deadlines -/

theorem isModificationAllowed_iff (now : Nat) (slot : DailyStatus) :
    isModificationAllowed now slot = true ↔
      slot.closeTime = none ∨ slot.closeTime = some "" ∨
        ∃ t, slotDeadline slot = some t ∧ now < t := by
  unfold isModificationAllowed slotDeadline
  cases hct : slot.closeTime with
  | none => simp
  | some ct =>
    by_cases hc : ct = ""
    · simp [hc]
    · cases hd : closeDeadline slot.date ct <;> simp [hc, hd]

theorem past_deadline_not_editable (now : Nat) (slot : DailyStatus) (t : Nat)
    (hd : slotDeadline slot = some t) (hle : t ≤ now) :
    canEditSlot now (some slot) = false ∧
    isModificationAllowed now slot = false := by
  unfold slotDeadline at hd
  cases hct : slot.closeTime with
  | none => rw [hct] at hd; simp at hd
  | some ct =>
    rw [hct] at hd
    by_cases hc : ct = ""
    · simp [hc] at hd
    · simp only [hc, if_false, reduceIte] at hd
      constructor
      · simp [canEditSlot, hct, hc, hd, Nat.not_lt.mpr hle]
      · simp [isModificationAllowed, hct, hc, hd, Nat.not_lt.mpr hle]

/-- C6: a slot is reported editable by the modal's deadline check iff it has
no (or an empty) `closeTime`, or the current time is strictly before the
parsed deadline (a bare time-of-day is combined with the slot's date, a string
with a date separator is parsed as a full date-time); a past-deadline slot is
never editable regardless of status; and the concrete scenario: `closeTime`
`"10:00"` with date `"2024-06-10"` is not editable at 11:00 local and
editable at 09:00 local. -/
theorem C6_deadline_check :
    (∀ now slot, isModificationAllowed now slot = true ↔
        slot.closeTime = none ∨ slot.closeTime = some "" ∨
          ∃ t, slotDeadline slot = some t ∧ now < t) ∧
    (∀ now slot t, slotDeadline slot = some t → t ≤ now →
        canEditSlot now (some slot) = false ∧
        isModificationAllowed now slot = false) ∧
    canEditSlot demoNow11 (some deadlineDemoSlot) = false ∧
    isModificationAllowed demoNow11 deadlineDemoSlot = false ∧
    canEditSlot demoNow09 (some deadlineDemoSlot) = true ∧
    isModificationAllowed demoNow09 deadlineDemoSlot = true :=
  ⟨isModificationAllowed_iff, past_deadline_not_editable,
   by decide, by decide, by decide, by decide⟩

/-- Witness for C6: the deadline of the scenario slot parses to minute
28633560 of the epoch timeline, which is at or before the simulated 11:00
current time, and the slot is indeed not editable then. -/
theorem C6_deadline_check_witness :
    slotDeadline deadlineDemoSlot = some 28633560 ∧
    28633560 ≤ demoNow11 ∧
    canEditSlot demoNow11 (some deadlineDemoSlot) = false ∧
    isModificationAllowed demoNow11 deadlineDemoSlot = false :=
  ⟨by decide, by decide,
   C6_deadline_check.2.1 demoNow11 deadlineDemoSlot 28633560 (by decide)
     (by decide)⟩

/-! ## C2: generator-output reconciliation -/

theorem reconcileItem_eq_none_iff (slots : List EnrichedSlot)
    (p : RawPlanItem) :
    reconcileItem slots p = none ↔
      slots.find? (slotMatches p) = none ∨
        ∃ slot, slots.find? (slotMatches p) = some slot ∧
          slot.menu.find? (dishMatches p) = none := by
  unfold reconcileItem
  cases hs : slots.find? (slotMatches p) with
  | none => simp [hs]
  | some slot =>
    cases hm : slot.menu.find? (dishMatches p) with
    | none =>
      simp [hs, hm]
      intro x hx
      simpa using List.find?_eq_none.mp hm x hx
    | some dish =>
      simp [hs, hm]
      exact ⟨dish, List.mem_of_find?_eq_some hm, List.find?_some hm⟩

theorem reconcilePlan_mem (slots : List EnrichedSlot)
    (parsed : List RawPlanItem) (q : PlannedOrder)
    (hq : q ∈ reconcilePlan slots parsed) :
    ∃ p ∈ parsed, ∃ slot, slots.find? (slotMatches p) = some slot ∧
      slot ∈ slots ∧ slot.date = p.date ∧ mtStr slot.mealTime = p.mealTime ∧
      q.dish ∈ slot.menu ∧ jvalStr q.dish.id = jvalStr p.dishId := by
  rcases List.mem_filterMap.mp hq with ⟨p, hp, hitem⟩
  refine ⟨p, hp, ?_⟩
  unfold reconcileItem at hitem
  cases hs : slots.find? (slotMatches p) with
  | none => rw [hs] at hitem; simp at hitem
  | some slot =>
    simp only [hs] at hitem
    cases hm : slot.menu.find? (dishMatches p) with
    | none => simp only [hm] at hitem; simp at hitem
    | some dish =>
      simp only [hm, Option.some.injEq] at hitem
      subst hitem
      have hsm := List.find?_some hs
      have hdm := List.find?_some hm
      unfold slotMatches at hsm
      unfold dishMatches at hdm
      simp only [Bool.and_eq_true, beq_iff_eq] at hsm hdm
      exact ⟨slot, rfl, List.mem_of_find?_eq_some hs, hsm.1, hsm.2,
        List.mem_of_find?_eq_some hm, hdm⟩

theorem startPlanning_aiGenFailed (prefs : UserPreferences)
    (ws : List DailyStatus) (o : SessionOracles) (parsed : List RawPlanItem)
    (hc : checkAIConfig prefs = true)
    (hs : (slotsToFill ws prefs).length ≠ 0)
    (he : (enrichedSlotsOf o.getDishes (slotsToFill ws prefs)).length ≠ 0)
    (hg : o.generate (enrichedSlotsOf o.getDishes (slotsToFill ws prefs))
      (historyOf o) = .ok parsed)
    (hr : (reconcilePlan (enrichedSlotsOf o.getDishes (slotsToFill ws prefs))
      parsed).length = 0) :
    (startPlanning prefs ws o).step = .error ∧
    (startPlanning prefs ws o).errorMsg = some "planner.aiGenFailed" := by
  unfold startPlanning
  simp [hc, hs, he, hg, hr]

/-- C2: an item survives reconciliation only when some enriched slot matches
it by (date, meal period) equality and that slot's menu holds a dish whose
identifier is loosely (string-coerced) equal to the item's `dishId`; an item
failing either match is exactly the discarded case, and discarding does not
abort the run; when zero items survive, the session ends in the error step
with the fatal "AI did not produce a usable plan" message; and the spec's
scenario — a string `"55"` against a numeric menu id 55 — still matches. -/
theorem C2_reconciliation :
    (∀ slots parsed q, q ∈ reconcilePlan slots parsed →
      ∃ p ∈ parsed, ∃ slot, slots.find? (slotMatches p) = some slot ∧
        slot ∈ slots ∧ slot.date = p.date ∧ mtStr slot.mealTime = p.mealTime ∧
        q.dish ∈ slot.menu ∧ jvalStr q.dish.id = jvalStr p.dishId) ∧
    (∀ slots p, reconcileItem slots p = none ↔
      slots.find? (slotMatches p) = none ∨
        ∃ slot, slots.find? (slotMatches p) = some slot ∧
          slot.menu.find? (dishMatches p) = none) ∧
    (∀ slots p rest, reconcileItem slots p = none →
      reconcilePlan slots (p :: rest) = reconcilePlan slots rest) ∧
    reconcileItem [enrichedDemo] rawDemo =
      some ⟨"2024-06-10", .LUNCH, ⟨.jnum 55, "Dish55", 100, "R"⟩, "why",
            "tab1", none, none⟩ ∧
    (∀ prefs ws o parsed, checkAIConfig prefs = true →
      (slotsToFill ws prefs).length ≠ 0 →
      (enrichedSlotsOf o.getDishes (slotsToFill ws prefs)).length ≠ 0 →
      o.generate (enrichedSlotsOf o.getDishes (slotsToFill ws prefs))
        (historyOf o) = .ok parsed →
      (reconcilePlan (enrichedSlotsOf o.getDishes (slotsToFill ws prefs))
        parsed).length = 0 →
      (startPlanning prefs ws o).step = .error ∧
      (startPlanning prefs ws o).errorMsg = some "planner.aiGenFailed") :=
  ⟨reconcilePlan_mem, reconcileItem_eq_none_iff,
   fun slots p rest h => by simp [reconcilePlan, h],
   by decide,
   startPlanning_aiGenFailed⟩

/-- Witness for C2: with one enrichable slot and a generator that proposes
only a nonexistent slot, reconciliation is empty and the session fails with
the fatal message. -/
theorem C2_reconciliation_witness :
    checkAIConfig prefsExec = true ∧
    (slotsToFill [slotWithTab] prefsExec).length ≠ 0 ∧
    (enrichedSlotsOf oraclesGenBad.getDishes
      (slotsToFill [slotWithTab] prefsExec)).length ≠ 0 ∧
    (startPlanning prefsExec [slotWithTab] oraclesGenBad).step = .error ∧
    (startPlanning prefsExec [slotWithTab] oraclesGenBad).errorMsg =
      some "planner.aiGenFailed" :=
  ⟨by decide, by decide, by decide,
   C2_reconciliation.2.2.2.2 prefsExec [slotWithTab] oraclesGenBad
     [⟨"1999-01-01", "LUNCH", .jstr "1", "x"⟩]
     (by decide) (by decide) (by decide) (by rfl) (by decide)⟩

/-! ## C7 / C9 / C10: enrichment failures, empty eligible set, handle-less
slots -/

theorem startPlanning_noMenus (prefs : UserPreferences)
    (ws : List DailyStatus) (o : SessionOracles)
    (hc : checkAIConfig prefs = true)
    (hs : (slotsToFill ws prefs).length ≠ 0)
    (he : (enrichedSlotsOf o.getDishes (slotsToFill ws prefs)).length = 0) :
    startPlanning prefs ws o =
      ⟨.error, some "planner.noMenusFound", [],
       menuCallsOf o.getDishes (slotsToFill ws prefs),
       enrichLogsOf o.getDishes (slotsToFill ws prefs),
       fetchedCountOf (slotsToFill ws prefs), false, false⟩ := by
  unfold startPlanning
  simp [hc, hs, he]

theorem enrichSlot_noTab
    (gd : String → String → Except String (List Dish)) (slot : DailyStatus)
    (h : slot.tabUniqueId = none ∨ slot.tabUniqueId = some "") :
    enrichSlot gd slot = ([], [], none) := by
  rcases h with h | h <;> simp [enrichSlot, h]

theorem enrich_all_noTab
    (gd : String → String → Except String (List Dish)) :
    ∀ slots : List DailyStatus,
      (∀ s ∈ slots, s.tabUniqueId = none ∨ s.tabUniqueId = some "") →
      enrichedSlotsOf gd slots = [] ∧ menuCallsOf gd slots = [] ∧
        enrichLogsOf gd slots = []
  | [], _ => ⟨rfl, rfl, rfl⟩
  | s :: rest, hall => by
    have hstep := enrichSlot_noTab gd s (hall s (by simp))
    have hrest := enrich_all_noTab gd rest (fun x hx => hall x (by simp [hx]))
    refine ⟨?_, ?_, ?_⟩
    · simp [enrichedSlotsOf, hstep, hrest.1]
    · simp [menuCallsOf, hstep, hrest.2.1]
    · simp [enrichLogsOf, hstep, hrest.2.2]

theorem fetchedCountOf_eq_length : ∀ l : List DailyStatus,
    fetchedCountOf l = l.length
  | [] => rfl
  | _ :: rest => by simp [fetchedCountOf, fetchedCountOf_eq_length rest]

/-- C7: during enrichment, a menu fetch that throws or returns an empty dish
list is logged and yields no enriched slot while the loop continues; and when
the enriched set is empty the session ends in the error step with the fatal
"no usable menus" message, with neither the history fetch nor the generator
having been called. -/
theorem C7_enrichment_failures :
    (∀ gd slot tab e, slot.tabUniqueId = some tab → tab ≠ "" →
      gd tab (menuTimeArg slot) = .error e →
      enrichSlot gd slot =
        ([.fetchingMenu slot.date slot.mealTime, .fetchMenuFailed slot.date],
         [(tab, menuTimeArg slot)], none)) ∧
    (∀ gd slot tab, slot.tabUniqueId = some tab → tab ≠ "" →
      gd tab (menuTimeArg slot) = .ok [] →
      enrichSlot gd slot =
        ([.fetchingMenu slot.date slot.mealTime, .noMenuFound slot.date],
         [(tab, menuTimeArg slot)], none)) ∧
    (∀ gd s rest, (enrichSlot gd s).2.2 = none →
      enrichedSlotsOf gd (s :: rest) = enrichedSlotsOf gd rest) ∧
    (∀ prefs ws o, checkAIConfig prefs = true →
      (slotsToFill ws prefs).length ≠ 0 →
      (enrichedSlotsOf o.getDishes (slotsToFill ws prefs)).length = 0 →
      startPlanning prefs ws o =
        ⟨.error, some "planner.noMenusFound", [],
         menuCallsOf o.getDishes (slotsToFill ws prefs),
         enrichLogsOf o.getDishes (slotsToFill ws prefs),
         fetchedCountOf (slotsToFill ws prefs), false, false⟩) := by
  refine ⟨?_, ?_, ?_, startPlanning_noMenus⟩
  · intro gd slot tab e htab hne herr
    simp [enrichSlot, htab, hne, herr]
  · intro gd slot tab htab hne hok
    simp [enrichSlot, htab, hne, hok]
  · intro gd s rest h
    simp [enrichedSlotsOf, h]

/-- Witness for C7: one eligible slot whose menu fetch throws leaves the
enriched set empty, and the session fails with the no-menus error without
history or generator calls. -/
theorem C7_enrichment_failures_witness :
    checkAIConfig prefsExec = true ∧
    (slotsToFill [slotWithTab] prefsExec).length ≠ 0 ∧
    (enrichedSlotsOf oraclesMenuFail.getDishes
      (slotsToFill [slotWithTab] prefsExec)).length = 0 ∧
    startPlanning prefsExec [slotWithTab] oraclesMenuFail =
      ⟨.error, some "planner.noMenusFound", [],
       menuCallsOf oraclesMenuFail.getDishes
         (slotsToFill [slotWithTab] prefsExec),
       enrichLogsOf oraclesMenuFail.getDishes
         (slotsToFill [slotWithTab] prefsExec),
       fetchedCountOf (slotsToFill [slotWithTab] prefsExec), false, false⟩ :=
  ⟨by decide, by decide, by decide,
   C7_enrichment_failures.2.2.2 prefsExec [slotWithTab] oraclesMenuFail
     (by decide) (by decide) (by decide)⟩

/-- C9 counterexample: with an empty eligible set but an incomplete AI
configuration, `startPlanning` reaches the configuration-collection step, not
the "fully planned" step, refuting the claim as stated. -/
theorem C9_counterexample :
    (slotsToFill [] prefsNoKey).length = 0 ∧
    (startPlanning prefsNoKey [] failingOracles).step = .ai_config ∧
    (startPlanning prefsNoKey [] failingOracles).step ≠ .fully_planned := by
  decide

/-- C9 (amended): with an empty eligible set the planner opens in the
"fully planned" state; `startPlanning` reaches "fully planned" provided the
AI-configuration check passes (otherwise it enters the configuration
collection state); and in every case no menu, history or generator call is
performed. -/
theorem C9_fully_planned :
    (∀ ws prefs, (slotsToFill ws prefs).length = 0 →
      initialStep ws prefs = .fully_planned) ∧
    (∀ ws prefs o, checkAIConfig prefs = true →
      (slotsToFill ws prefs).length = 0 →
      startPlanning prefs ws o =
        ⟨.fully_planned, none, [], [], [], 0, false, false⟩) ∧
    (∀ ws prefs o, (slotsToFill ws prefs).length = 0 →
      (startPlanning prefs ws o).menuCalls = [] ∧
      (startPlanning prefs ws o).historyCalled = false ∧
      (startPlanning prefs ws o).generatorCalled = false) := by
  refine ⟨?_, ?_, ?_⟩
  · intro ws prefs h
    simp [initialStep, h]
  · intro ws prefs o hc h
    unfold startPlanning
    simp [hc, h]
  · intro ws prefs o h
    unfold startPlanning
    cases hcfg : checkAIConfig prefs <;> simp [hcfg, h]

/-- Witness for C9 (amended): an empty calendar with a complete configuration
reaches the fully-planned state without any calls. -/
theorem C9_fully_planned_witness :
    (slotsToFill ([] : List DailyStatus) prefsExec).length = 0 ∧
    checkAIConfig prefsExec = true ∧
    startPlanning prefsExec [] failingOracles =
      ⟨.fully_planned, none, [], [], [], 0, false, false⟩ :=
  ⟨by decide, by decide,
   C9_fully_planned.2.1 [] prefsExec failingOracles (by decide) (by decide)⟩

/-- C10: an eligible slot without an order-channel handle is skipped with no
menu fetch and no log entry while still being counted in fetch progress, and
when every eligible slot lacks a handle the session fails with the same fatal
no-menus error with zero fetches and zero logs. -/
theorem C10_handleless_slots :
    (∀ gd slot, slot.tabUniqueId = none ∨ slot.tabUniqueId = some "" →
      enrichSlot gd slot = ([], [], none)) ∧
    (∀ slots : List DailyStatus, fetchedCountOf slots = slots.length) ∧
    (∀ prefs ws o, checkAIConfig prefs = true →
      (slotsToFill ws prefs).length ≠ 0 →
      (∀ s ∈ slotsToFill ws prefs,
        s.tabUniqueId = none ∨ s.tabUniqueId = some "") →
      startPlanning prefs ws o =
        ⟨.error, some "planner.noMenusFound", [], [], [],
         (slotsToFill ws prefs).length, false, false⟩) := by
  refine ⟨enrichSlot_noTab, fetchedCountOf_eq_length, ?_⟩
  intro prefs ws o hc hs hall
  obtain ⟨he, hcalls, hlogs⟩ := enrich_all_noTab o.getDishes _ hall
  rw [startPlanning_noMenus prefs ws o hc hs (by rw [he]; rfl)]
  rw [hcalls, hlogs, fetchedCountOf_eq_length]

/-- Witness for C10: a single eligible handle-less slot triggers the fatal
no-menus error with no fetch attempted. -/
theorem C10_handleless_slots_witness :
    checkAIConfig prefsExec = true ∧
    (slotsToFill [eligibleDemoSlot] prefsExec).length ≠ 0 ∧
    (∀ s ∈ slotsToFill [eligibleDemoSlot] prefsExec,
      s.tabUniqueId = none ∨ s.tabUniqueId = some "") ∧
    startPlanning prefsExec [eligibleDemoSlot] failingOracles =
      ⟨.error, some "planner.noMenusFound", [], [], [], 1, false, false⟩ :=
  ⟨by decide, by decide, by decide, by
    have h := C10_handleless_slots.2.2 prefsExec [eligibleDemoSlot]
      failingOracles (by decide) (by decide) (by decide)
    simpa using h⟩

/-! ## C1: batch result accounting -/

/-- C1: evaluation of the code at the failing input.  A single proposal that
already carries an address is submitted; the order API fails, yet the
Execution Result entry records success with no message, because `placeOrder`
swallows every error (resolving with a success flag) and `executeOrder`
ignores that flag.  The request was really attempted (one call was sent), and
the API really failed on it. -/
theorem C1_placement_failure_eval :
    (executeOrder prefsExec [] planCarriedAddr gaThrow apiNetworkError).results =
      [⟨"2024-06-10", "Kung Pao", true, none⟩] ∧
    (executeOrder prefsExec [] planCarriedAddr gaThrow apiNetworkError).calls =
      [⟨"tab1", .jstr "d1", "2024-06-10 09:00", "addr1", "addr1"⟩] ∧
    apiNetworkError
        ⟨"tab1", .jstr "d1", "2024-06-10 09:00", "addr1", "addr1"⟩ =
      .error "Network error" ∧
    (placeOrder apiNetworkError false "tab1" (.jstr "d1") "2024-06-10 09:00"
        (some "addr1") none).1.success = false :=
  ⟨by decide, by decide, rfl, by decide⟩

/-! ## C5: order submission parameters -/

theorem placeOrder_calls (api : OrderRequest → Except String OrderResponse)
    (mock : Bool) (tab : String) (did : JVal) (tt : String)
    (corp : Option String) (req : OrderRequest)
    (h : req ∈ (placeOrder api mock tab did tt corp none).2) :
    req.userAddressUniqueId = req.corpAddressUniqueId ∧
    req.tabUniqueId = tab ∧ req.dishId = did ∧ req.targetTime = tt := by
  unfold placeOrder at h
  cases mock with
  | true => simp at h
  | false =>
    cases corp with
    | none => simp at h
    | some c =>
      by_cases hc : c = ""
      · simp [hc] at h
      · simp only [hc] at h
        cases hapi : api ⟨tab, did, tt, c, c⟩ with
        | ok resp =>
          simp only [hapi] at h
          cases hsucc : resp.successful <;>
            · simp only [hsucc] at h
              simp at h
              subst h
              exact ⟨rfl, rfl, rfl, rfl⟩
        | error e =>
          simp only [hapi] at h
          simp at h
          subst h
          exact ⟨rfl, rfl, rfl, rfl⟩

theorem execStep_calls (ga : Option String → Except String AddrResult)
    (api : OrderRequest → Except String OrderResponse) (mock : Bool)
    (st : BatchState) (item : PlannedOrder) (req : OrderRequest)
    (h : req ∈ (execStep ga api mock st item).2.1) :
    req.userAddressUniqueId = req.corpAddressUniqueId ∧
    req.tabUniqueId = item.tabUniqueId ∧ req.dishId = item.dish.id ∧
    req.targetTime = item.date ++ " " ++ targetTimeFor item.mealTime := by
  unfold execStep at h
  cases ht : truthy (resolveAddress ga st item).1 with
  | false => simp [ht] at h
  | true =>
    simp only [ht] at h
    simp at h
    exact placeOrder_calls api mock item.tabUniqueId item.dish.id
      (item.date ++ " " ++ targetTimeFor item.mealTime)
      (resolveAddress ga st item).1 req h

theorem execLoop_calls (ga : Option String → Except String AddrResult)
    (api : OrderRequest → Except String OrderResponse) (mock : Bool) :
    ∀ (plan : List PlannedOrder) (st : BatchState) (req : OrderRequest),
      req ∈ (execLoop ga api mock st plan).calls →
      ∃ item ∈ plan,
        req.userAddressUniqueId = req.corpAddressUniqueId ∧
        req.tabUniqueId = item.tabUniqueId ∧ req.dishId = item.dish.id ∧
        req.targetTime = item.date ++ " " ++ targetTimeFor item.mealTime
  | [], _, req, h => by simp [execLoop] at h
  | item :: rest, st, req, h => by
    rcases List.mem_append.mp h with h1 | h1
    · exact ⟨item, by simp, execStep_calls ga api mock st item req h1⟩
    · rcases execLoop_calls ga api mock rest _ req h1 with ⟨it, hit, hrest⟩
      exact ⟨it, by simp [hit], hrest⟩

/-- C5: every order request emitted by a batch run passes the resolved
address identifier as both the corp-address and the user-address field, and
its target time is the proposal's date joined with the fixed per-period clock
time (breakfast 07:00, lunch 09:00, dinner 12:00). -/
theorem C5_order_submission :
    targetTimeFor .BREAKFAST = "07:00" ∧ targetTimeFor .LUNCH = "09:00" ∧
    targetTimeFor .DINNER = "12:00" ∧
    (∀ prefs ws plan ga api req,
      req ∈ (executeOrder prefs ws plan ga api).calls →
      req.userAddressUniqueId = req.corpAddressUniqueId ∧
      ∃ item ∈ plan, req.tabUniqueId = item.tabUniqueId ∧
        req.dishId = item.dish.id ∧
        req.targetTime = item.date ++ " " ++ targetTimeFor item.mealTime) := by
  refine ⟨rfl, rfl, rfl, ?_⟩
  intro prefs ws plan ga api req h
  rcases execLoop_calls ga api prefs.useMockData plan _ req h with
    ⟨item, hit, h1, h2, h3, h4⟩
  exact ⟨h1, item, hit, h2, h3, h4⟩

/-- Witness for C5: the single request of the `planNoAddr` batch carries the
resolved identifier `"a2"` in both address fields and the 09:00 lunch target
time. -/
theorem C5_order_submission_witness :
    reqDemo ∈ (executeOrder prefsExec [] planNoAddr gaTwoAddrs apiOk).calls ∧
    reqDemo.userAddressUniqueId = reqDemo.corpAddressUniqueId ∧
    ∃ item ∈ planNoAddr, reqDemo.tabUniqueId = item.tabUniqueId ∧
      reqDemo.dishId = item.dish.id ∧
      reqDemo.targetTime = item.date ++ " " ++ targetTimeFor item.mealTime :=
  ⟨by decide,
   C5_order_submission.2.2.2 prefsExec [] planNoAddr gaTwoAddrs apiOk reqDemo
     (by decide)⟩

/-! ## C4: per-proposal address resolution -/

/-- C4 counterexample: with no captured name, a namespace listing addresses
`a1` (name `N1`) and `a2` (name `N2`) and suggesting `a2` as default, the
batch orders with `a2` — the chosen address — but learns the name `N1` of the
first listed address, not the chosen address's name `N2`. -/
theorem C4_counterexample :
    (executeOrder prefsExec [] planNoAddr gaTwoAddrs apiOk).calls =
      [reqDemo] ∧
    reqDemo.corpAddressUniqueId = "a2" ∧
    BatchState.defaultAddressName
      (ExecResult.state
        (executeOrder prefsExec [] planNoAddr gaTwoAddrs apiOk)) =
      some "N1" ∧
    List.find? (fun a => a.uniqueId == "a2")
        ([⟨"a1", "N1"⟩, ⟨"a2", "N2"⟩] : List Address) = some ⟨"a2", "N2"⟩ ∧
    lookupCache
      (AddrState.cache
        (BatchState.addr
          (ExecResult.state
            (executeOrder prefsExec [] planNoAddr gaTwoAddrs apiOk)))) "ns1" =
      some ⟨[⟨"a1", "N1"⟩, ⟨"a2", "N2"⟩], some "a2"⟩ ∧
    some "N1" ≠ some "N2" := by
  decide

theorem resolveAddress_carried
    (ga : Option String → Except String AddrResult) (st : BatchState)
    (item : PlannedOrder) (h : truthy item.userAddressUniqueId = true) :
    resolveAddress ga st item = (item.userAddressUniqueId, st) := by
  unfold resolveAddress
  simp [h]

theorem nameMatched_found (dan : Option String) (result : AddrResult)
    (a0 : Option String) (n : String) (m : Address) (hd : dan = some n)
    (hn : n ≠ "") (hf : result.addresses.find? (fun a => a.name == n) = some m) :
    nameMatched dan result a0 = some m.uniqueId := by
  subst hd
  simp [nameMatched, hn, hf]

theorem resolveAddress_nameMatch
    (ga : Option String → Except String AddrResult) (st : BatchState)
    (item : PlannedOrder) (h : truthy item.userAddressUniqueId = false)
    (hm : truthy (nameMatched st.defaultAddressName
      (getAddressesForNamespace ga st.addr item.nspace).1
      item.userAddressUniqueId) = true) :
    resolveAddress ga st item =
      (nameMatched st.defaultAddressName
        (getAddressesForNamespace ga st.addr item.nspace).1
        item.userAddressUniqueId,
       ⟨(getAddressesForNamespace ga st.addr item.nspace).2,
        st.defaultAddressName⟩) := by
  unfold resolveAddress
  simp [h, hm]

theorem resolveAddress_fallback
    (ga : Option String → Except String AddrResult) (st : BatchState)
    (item : PlannedOrder) (a : Address) (rest : List Address)
    (h : truthy item.userAddressUniqueId = false)
    (hm : truthy (nameMatched st.defaultAddressName
      (getAddressesForNamespace ga st.addr item.nspace).1
      item.userAddressUniqueId) = false)
    (ha : (getAddressesForNamespace ga st.addr item.nspace).1.addresses =
      a :: rest) :
    resolveAddress ga st item =
      (some (fallbackChoice (getAddressesForNamespace ga st.addr item.nspace).1
         a),
       ⟨(getAddressesForNamespace ga st.addr item.nspace).2,
        if truthy st.defaultAddressName then st.defaultAddressName
        else some a.name⟩) := by
  unfold resolveAddress
  simp [h, hm, ha]

theorem resolveAddress_empty
    (ga : Option String → Except String AddrResult) (st : BatchState)
    (item : PlannedOrder) (h : truthy item.userAddressUniqueId = false)
    (hm : truthy (nameMatched st.defaultAddressName
      (getAddressesForNamespace ga st.addr item.nspace).1
      item.userAddressUniqueId) = false)
    (ha : (getAddressesForNamespace ga st.addr item.nspace).1.addresses = []) :
    resolveAddress ga st item =
      (nameMatched st.defaultAddressName
        (getAddressesForNamespace ga st.addr item.nspace).1
        item.userAddressUniqueId,
       ⟨(getAddressesForNamespace ga st.addr item.nspace).2,
        st.defaultAddressName⟩) := by
  unfold resolveAddress
  simp [h, hm, ha]

theorem execStep_noAddress (ga : Option String → Except String AddrResult)
    (api : OrderRequest → Except String OrderResponse) (mock : Bool)
    (st : BatchState) (item : PlannedOrder)
    (h : truthy (resolveAddress ga st item).1 = false) :
    execStep ga api mock st item =
      (⟨item.date, item.dish.name, false,
        some ("No valid address found for namespace " ++ nsLabel item.nspace)⟩,
       [], (resolveAddress ga st item).2) := by
  unfold execStep
  simp [h]

/-- C4 (amended): a proposal carrying an address identifier uses it directly;
otherwise the namespace's (cached) address list is consulted: an address
whose name equals the captured preferred name supplies the identifier, else
the namespace's suggested default identifier or its first listed address is
used, and when no preferred name had been captured the name of the
namespace's first listed address (not necessarily the chosen one) is learned
for later iterations; when no address can be resolved the proposal is
recorded as failed with the "No valid address found for namespace X" message
and the loop continues with the remaining proposals. -/
theorem C4_address_resolution :
    (∀ ga st item, truthy item.userAddressUniqueId = true →
      resolveAddress ga st item = (item.userAddressUniqueId, st)) ∧
    (∀ dan result a0 n m, dan = some n → n ≠ "" →
      result.addresses.find? (fun a => a.name == n) = some m →
      nameMatched dan result a0 = some m.uniqueId) ∧
    (∀ ga st item a rest, truthy item.userAddressUniqueId = false →
      truthy (nameMatched st.defaultAddressName
        (getAddressesForNamespace ga st.addr item.nspace).1
        item.userAddressUniqueId) = false →
      (getAddressesForNamespace ga st.addr item.nspace).1.addresses =
        a :: rest →
      resolveAddress ga st item =
        (some (fallbackChoice
           (getAddressesForNamespace ga st.addr item.nspace).1 a),
         ⟨(getAddressesForNamespace ga st.addr item.nspace).2,
          if truthy st.defaultAddressName then st.defaultAddressName
          else some a.name⟩)) ∧
    (∀ result a d, result.defaultAddressId = some d → d ≠ "" →
      fallbackChoice result a = d) ∧
    (∀ result a, truthy result.defaultAddressId = false →
      fallbackChoice result a = a.uniqueId) ∧
    (∀ ga api mock st item, truthy (resolveAddress ga st item).1 = false →
      execStep ga api mock st item =
        (⟨item.date, item.dish.name, false,
          some ("No valid address found for namespace " ++
            nsLabel item.nspace)⟩,
         [], (resolveAddress ga st item).2)) ∧
    (∀ ga api mock st item rest,
      (execLoop ga api mock st (item :: rest)).results =
        (execStep ga api mock st item).1 ::
          (execLoop ga api mock (execStep ga api mock st item).2.2
            rest).results) := by
  refine ⟨resolveAddress_carried, nameMatched_found, ?_, ?_, ?_,
    execStep_noAddress, fun _ _ _ _ _ _ => rfl⟩
  · intro ga st item a rest h hm ha
    exact resolveAddress_fallback ga st item a rest h hm ha
  · intro result a d hd hne
    simp [fallbackChoice, hd, hne]
  · intro result a hf
    cases hd : result.defaultAddressId with
    | none => simp [fallbackChoice, hd]
    | some d =>
      rw [hd] at hf
      simp only [truthy, ne_eq, decide_eq_false_iff_not, Decidable.not_not]
        at hf
      simp [fallbackChoice, hd, hf]

/-- Witness for C4 (amended): the fallback branch on the two-address
namespace chooses the suggested default `a2` and learns the first listed
address's name `N1`. -/
theorem C4_address_resolution_witness :
    truthy itemNoAddr.userAddressUniqueId = false ∧
    truthy (nameMatched batchState0.defaultAddressName
      (getAddressesForNamespace gaTwoAddrs batchState0.addr
        itemNoAddr.nspace).1 itemNoAddr.userAddressUniqueId) = false ∧
    (getAddressesForNamespace gaTwoAddrs batchState0.addr
      itemNoAddr.nspace).1.addresses =
      ⟨"a1", "N1"⟩ :: [⟨"a2", "N2"⟩] ∧
    resolveAddress gaTwoAddrs batchState0 itemNoAddr =
      (some "a2",
       ⟨⟨[("ns1", ⟨[⟨"a1", "N1"⟩, ⟨"a2", "N2"⟩], some "a2"⟩)], ["ns1"]⟩,
        some "N1"⟩) := by
  refine ⟨by decide, by decide, by decide, ?_⟩
  have h := C4_address_resolution.2.2.1 gaTwoAddrs batchState0 itemNoAddr
    ⟨"a1", "N1"⟩ [⟨"a2", "N2"⟩] (by decide) (by decide) (by decide)
  rw [h]
  decide

/-! ## C8: the per-batch address cache -/

theorem lookupCache_append_left :
    ∀ (l1 : List (String × AddrResult)) (l2 : List (String × AddrResult))
      (k : String) (v : AddrResult),
      lookupCache l1 k = some v → lookupCache (l1 ++ l2) k = some v
  | [], _, _, _, h => by simp [lookupCache] at h
  | (a, b) :: rest, l2, k, v, h => by
    rw [List.cons_append]
    simp only [lookupCache] at h ⊢
    by_cases ha : a = k
    · simpa [ha] using h
    · simp only [ha, if_false] at h ⊢
      exact lookupCache_append_left rest l2 k v h

theorem lookupCache_append_self :
    ∀ (l : List (String × AddrResult)) (k : String) (v : AddrResult),
      lookupCache l k = none → lookupCache (l ++ [(k, v)]) k = some v
  | [], k, v, _ => by simp [lookupCache]
  | (a, b) :: rest, k, v, h => by
    rw [List.cons_append]
    simp only [lookupCache] at h ⊢
    by_cases ha : a = k
    · simp [ha] at h
    · simp only [ha, if_false] at h ⊢
      exact lookupCache_append_self rest k v h

theorem getAddressesForNamespace_cached
    (ga : Option String → Except String AddrResult) (st : AddrState)
    (ns : Option String) (r : AddrResult)
    (h : lookupCache st.cache (cacheKey ns) = some r) :
    getAddressesForNamespace ga st ns = (r, st) := by
  unfold getAddressesForNamespace
  simp [h]

theorem getAddressesForNamespace_miss
    (ga : Option String → Except String AddrResult) (st : AddrState)
    (ns : Option String)
    (h : lookupCache st.cache (cacheKey ns) = none) :
    (getAddressesForNamespace ga st ns).2.fetchTrace =
      st.fetchTrace ++ [cacheKey ns] ∧
    (getAddressesForNamespace ga st ns).2.cache =
      st.cache ++ [(cacheKey ns, (getAddressesForNamespace ga st ns).1)] ∧
    lookupCache (getAddressesForNamespace ga st ns).2.cache (cacheKey ns) =
      some (getAddressesForNamespace ga st ns).1 ∧
    (∀ e, ga ns = .error e →
      (getAddressesForNamespace ga st ns).1 = ⟨[], none⟩) := by
  unfold getAddressesForNamespace
  simp only [h]
  refine ⟨trivial, trivial, ?_, ?_⟩
  · exact lookupCache_append_self _ _ _ h
  · intro e he
    simp [he]

theorem cacheInv_empty : CacheInv ⟨[], []⟩ :=
  ⟨List.nodup_nil, fun _ hk => absurd hk (List.not_mem_nil _)⟩

theorem cacheInv_get (ga : Option String → Except String AddrResult)
    (st : AddrState) (ns : Option String) (h : CacheInv st) :
    CacheInv (getAddressesForNamespace ga st ns).2 := by
  cases hl : lookupCache st.cache (cacheKey ns) with
  | some r =>
    rw [getAddressesForNamespace_cached ga st ns r hl]
    exact h
  | none =>
    obtain ⟨h1, h2, _, _⟩ := getAddressesForNamespace_miss ga st ns hl
    have hnot : cacheKey ns ∉ st.fetchTrace := by
      intro hmem
      have := h.2 _ hmem
      rw [hl] at this
      simp at this
    constructor
    · rw [h1, List.nodup_append]
      exact ⟨h.1, List.nodup_singleton _,
        fun k hk hk2 => hnot (List.mem_singleton.mp hk2 ▸ hk)⟩
    · intro k hk
      rw [h1] at hk
      rw [h2]
      rcases List.mem_append.mp hk with hk | hk
      · obtain ⟨v, hv⟩ := Option.isSome_iff_exists.mp (h.2 k hk)
        rw [lookupCache_append_left _ _ _ _ hv]
        rfl
      · rw [List.mem_singleton.mp hk]
        rw [lookupCache_append_self _ _ _ hl]
        rfl

theorem resolveAddress_addr (ga : Option String → Except String AddrResult)
    (st : BatchState) (item : PlannedOrder) :
    (resolveAddress ga st item).2.addr = st.addr ∨
    (resolveAddress ga st item).2.addr =
      (getAddressesForNamespace ga st.addr item.nspace).2 := by
  unfold resolveAddress
  split
  · exact Or.inl rfl
  · dsimp only
    split
    · exact Or.inr rfl
    · split
      · exact Or.inr rfl
      · exact Or.inr rfl

theorem execStep_state (ga : Option String → Except String AddrResult)
    (api : OrderRequest → Except String OrderResponse) (mock : Bool)
    (st : BatchState) (item : PlannedOrder) :
    (execStep ga api mock st item).2.2 = (resolveAddress ga st item).2 := by
  unfold execStep
  dsimp only
  split <;> rfl

theorem cacheInv_execStep (ga : Option String → Except String AddrResult)
    (api : OrderRequest → Except String OrderResponse) (mock : Bool)
    (st : BatchState) (item : PlannedOrder) (h : CacheInv st.addr) :
    CacheInv (execStep ga api mock st item).2.2.addr := by
  rw [execStep_state]
  rcases resolveAddress_addr ga st item with he | he <;> rw [he]
  · exact h
  · exact cacheInv_get ga st.addr item.nspace h

theorem cacheInv_execLoop (ga : Option String → Except String AddrResult)
    (api : OrderRequest → Except String OrderResponse) (mock : Bool) :
    ∀ (plan : List PlannedOrder) (st : BatchState), CacheInv st.addr →
      CacheInv (execLoop ga api mock st plan).state.addr
  | [], _, h => h
  | item :: rest, st, h =>
    cacheInv_execLoop ga api mock rest _
      (cacheInv_execStep ga api mock st item h)

theorem cacheInv_initNameFromPrefs
    (ga : Option String → Except String AddrResult)
    (prefs : UserPreferences) (plan : List PlannedOrder) :
    CacheInv (initNameFromPrefs ga prefs plan).2 := by
  unfold initNameFromPrefs
  dsimp only
  split
  · split
    · exact cacheInv_empty
    · split
      · exact cacheInv_get ga ⟨[], []⟩ _ cacheInv_empty
      · exact cacheInv_get ga ⟨[], []⟩ _ cacheInv_empty
  · exact cacheInv_empty

theorem cacheInv_initDefaultName
    (ga : Option String → Except String AddrResult)
    (prefs : UserPreferences) (weekStatus : List DailyStatus)
    (plan : List PlannedOrder) :
    CacheInv (initDefaultName ga prefs weekStatus plan).addr := by
  unfold initDefaultName
  dsimp only
  have h0 := cacheInv_initNameFromPrefs ga prefs plan
  split
  · exact h0
  · split
    · split
      · split
        · exact cacheInv_get ga _ _ h0
        · exact cacheInv_get ga _ _ h0
      · exact h0
    · exact h0

/-- C8: missing (or empty) namespaces map to the explicit cache key
`"default"`; a cached namespace is answered from the cache with no new fetch
and unchanged state; a cache miss fetches exactly once, appends the key to
the fetch trace, caches the result — an empty address list when the fetch
throws — under that key; and over any whole batch run no namespace key is
ever fetched twice. -/
theorem C8_address_cache :
    cacheKey none = "default" ∧ cacheKey (some "") = "default" ∧
    (∀ ga st ns r, lookupCache st.cache (cacheKey ns) = some r →
      getAddressesForNamespace ga st ns = (r, st)) ∧
    (∀ ga st ns, lookupCache st.cache (cacheKey ns) = none →
      (getAddressesForNamespace ga st ns).2.fetchTrace =
        st.fetchTrace ++ [cacheKey ns] ∧
      lookupCache (getAddressesForNamespace ga st ns).2.cache (cacheKey ns) =
        some (getAddressesForNamespace ga st ns).1 ∧
      (∀ e, ga ns = .error e →
        (getAddressesForNamespace ga st ns).1 = ⟨[], none⟩)) ∧
    (∀ prefs ws plan ga api,
      ((executeOrder prefs ws plan ga api).state.addr.fetchTrace).Nodup) := by
  refine ⟨rfl, rfl, getAddressesForNamespace_cached, ?_, ?_⟩
  · intro ga st ns h
    obtain ⟨h1, _, h3, h4⟩ := getAddressesForNamespace_miss ga st ns h
    exact ⟨h1, h3, h4⟩
  · intro prefs ws plan ga api
    exact (cacheInv_execLoop ga api prefs.useMockData plan _
      (cacheInv_initDefaultName ga prefs ws plan)).1

/-- Witness for C8: a second request for the already-cached namespace `ns1`
returns the cached value with no new fetch. -/
theorem C8_address_cache_witness :
    lookupCache addrStateDemo.cache (cacheKey (some "ns1")) =
      some ⟨[⟨"a1", "N1"⟩], none⟩ ∧
    getAddressesForNamespace gaThrow addrStateDemo (some "ns1") =
      (⟨[⟨"a1", "N1"⟩], none⟩, addrStateDemo) :=
  ⟨by decide,
   C8_address_cache.2.2.1 gaThrow addrStateDemo (some "ns1")
     ⟨[⟨"a1", "N1"⟩], none⟩ (by decide)⟩

end Meican
